import Mathlib

/-!
Verification development for the vocalQ outbound-calling backend.

The definitions below are shallow embeddings of the Python sources under
backend/app: the outbound queue worker (services/outbound_service.py), the
realtime call bridge (api/endpoints/websocket.py), the two AI session
adapters (services/openai_realtime_service.py,
services/gemini_realtime_service.py) and the summarizer
(services/llm_service.py).  External collaborators (Twilio, ngrok, the
audioop resampler, Qdrant search, the Gemini HTTP summarizer) are modelled
as explicit inputs/parameters; time is modelled in whole seconds.
-/

namespace VocalQ

/-! ## Outbound dialer (services/outbound_service.py) -/

/-- Status values written to the call_queue table by OutboundService. -/
inductive QStatus
  | pending
  | calling
  | retry_scheduled
  | answered
  | failed_final
deriving DecidableEq, Repr

/-- Terminal Twilio call statuses accepted by wait_for_call_completion
(completed, busy, failed, no-answer, canceled), plus the `unknown` outcome
produced when a status poll raises. -/
inductive CallOutcome
  | completed
  | busy
  | failed
  | no_answer
  | canceled
  | unknown
deriving DecidableEq, Repr

/-- String form of a carrier outcome, as stored in error_reason. -/
def CallOutcome.label : CallOutcome → String
  | .completed => "completed"
  | .busy => "busy"
  | .failed => "failed"
  | .no_answer => "no-answer"
  | .canceled => "canceled"
  | .unknown => "unknown"

/-- One row of the call_queue table, with the joined contact phone number
(the select in process_queue joins contacts(phone_number); a missing or
phone-less contact is modelled as `none`). -/
structure QueueItem where
  status : QStatus
  attempt_count : Nat
  max_attempts : Nat
  scheduled_time : Nat
  next_retry_at : Option Nat
  last_call_at : Option Nat
  call_sid : Option String
  error_reason : Option String
  phone_number : Option String
deriving DecidableEq, Repr

/-- Row inserted by OutboundService.add_to_queue for one phone number:
status pending, attempt_count 0, scheduled_time now.  max_attempts comes
from the table default (the schema is external), so it is a parameter. -/
def enqueueItem (number : String) (now : Nat) (mx : Nat) : QueueItem :=
  { status := .pending
  , attempt_count := 0
  , max_attempts := mx
  , scheduled_time := now
  , next_retry_at := none
  , last_call_at := none
  , call_sid := none
  , error_reason := none
  , phone_number := some number }

/-- Environment of one iteration of the process_queue loop: the wall clock,
the result of get_ngrok_url, whether client.calls.create raised (with the
error text), the sid Twilio assigned, and the terminal outcome returned by
wait_for_call_completion. -/
structure DialEnv where
  now : Nat
  ngrok_url : Option String
  twilio_error : Option String
  call_sid : String
  outcome : CallOutcome
deriving Repr

/-- Retry delay used by process_queue: timedelta(minutes=5), in seconds. -/
def retryDelaySeconds : Nat := 300

/-- Final state of one selected queue item after one iteration of
OutboundService.process_queue (outbound_service.py lines 114-186):
missing phone number marks failed_final; otherwise the item is marked
calling (with last_call_at), then, if no ngrok URL resolves, it is left in
that state; a calls.create exception marks failed_final with the error
text; otherwise the call sid is stored and the carrier outcome is handled:
completed marks answered (attempt_count untouched), any other outcome
increments attempt_count and either marks failed_final (threshold reached)
or retry_scheduled with next_retry_at five minutes ahead, recording the
outcome as error_reason. -/
def processItem (env : DialEnv) (it : QueueItem) : QueueItem :=
  match it.phone_number with
  | none => { it with status := .failed_final, error_reason := some "No phone number" }
  | some _ =>
    let calling : QueueItem := { it with status := .calling, last_call_at := some env.now }
    match env.ngrok_url with
    | none => calling
    | some _ =>
      match env.twilio_error with
      | some e => { calling with status := .failed_final, error_reason := some e }
      | none =>
        let placed : QueueItem := { calling with call_sid := some env.call_sid }
        match env.outcome with
        | .completed => { placed with status := .answered }
        | oc =>
          if it.max_attempts ≤ it.attempt_count + 1 then
            { placed with
                status := .failed_final
              , attempt_count := it.attempt_count + 1
              , error_reason := some oc.label }
          else
            { placed with
                status := .retry_scheduled
              , attempt_count := it.attempt_count + 1
              , next_retry_at := some (env.now + retryDelaySeconds)
              , error_reason := some oc.label }

/-- Sequence of status values written to the selected row during one
iteration of process_queue (only the updates whose payload contains a
"status" key; the call_sid update writes no status). -/
def statusWrites (env : DialEnv) (it : QueueItem) : List QStatus :=
  match it.phone_number with
  | none => [.failed_final]
  | some _ =>
    match env.ngrok_url with
    | none => [.calling]
    | some _ =>
      match env.twilio_error with
      | some _ => [.calling, .failed_final]
      | none =>
        match env.outcome with
        | .completed => [.calling, .answered]
        | _ =>
          if it.max_attempts ≤ it.attempt_count + 1 then [.calling, .failed_final]
          else [.calling, .retry_scheduled]

/-- The retry filter of the second select in process_queue:
next_retry_at <= now (a row with no next_retry_at never matches the lte
filter). -/
def nextRetryElapsed (now : Nat) (it : QueueItem) : Bool :=
  match it.next_retry_at with
  | some t => decide (t ≤ now)
  | none => false

/-- A row matching one of the two selects of process_queue:
status pending, or status retry_scheduled with next_retry_at elapsed. -/
def selectable (now : Nat) (it : QueueItem) : Bool :=
  it.status == .pending || (it.status == .retry_scheduled && nextRetryElapsed now it)

/-- Index of the first row satisfying a predicate (model of a limit-1
select over the table, oldest first). -/
def findIdxFrom (p : QueueItem → Bool) : List QueueItem → Option Nat
  | [] => none
  | it :: rest => if p it then some 0 else (findIdxFrom p rest).map (· + 1)

/-- Prospect selection of process_queue: first try a pending row, then a
retry_scheduled row whose next_retry_at has elapsed. -/
def selectIdx (now : Nat) (db : List QueueItem) : Option Nat :=
  match findIdxFrom (fun it => it.status == .pending) db with
  | some i => some i
  | none =>
    findIdxFrom (fun it => it.status == .retry_scheduled && nextRetryElapsed now it) db

/-- One iteration of the process_queue loop over the whole table: select a
prospect (if none, the table is untouched and the worker sleeps) and
replace it by its processed state. -/
def queueStep (env : DialEnv) (db : List QueueItem) : List QueueItem :=
  match selectIdx env.now db with
  | none => db
  | some i =>
    match db[i]? with
    | some it => db.set i (processItem env it)
    | none => db

/-- A run of the worker over a sequence of per-iteration environments. -/
def queueRun (envs : List DialEnv) (db : List QueueItem) : List QueueItem :=
  envs.foldl (fun d e => queueStep e d) db

/-- Attempt-count invariant: attempt_count never exceeds max_attempts, and
a non-terminal item is strictly below the threshold. -/
def attemptInv (it : QueueItem) : Prop :=
  it.attempt_count ≤ it.max_attempts ∧
    (it.status = .failed_final ∨ it.status = .answered ∨
      it.attempt_count < it.max_attempts)

instance (it : QueueItem) : Decidable (attemptInv it) := by
  unfold attemptInv; infer_instance

/-! ## Realtime call bridge: local VAD hysteresis and interruption
(api/endpoints/websocket.py, media branch, lines 99-119) -/

/-- The two AI session adapter variants; websocket.py line 32 constructs
the Gemini one (the OpenAI construction on line 31 is commented out). -/
inductive Variant
  | openai
  | gemini
deriving DecidableEq, Repr

/-- Observable actions of the bridge while handling one inbound telephony
media frame. -/
inductive BridgeAction
  | clearToTwilio
  | cancelToAdapter
  | audioToAdapter
deriving DecidableEq, Repr

/-- Interruption call dispatched on the adapter object.
OpenAIRealtimeService.handle_interruption (openai_realtime_service.py lines
328-339) returns early when not connected, else sends a clear event to
Twilio and then response.cancel to the adapter socket.
GeminiRealtimeService defines no handle_interruption method at all, so the
attribute lookup in websocket.py line 111 raises AttributeError, modelled
as an error value. -/
def handleInterruption : Variant → Bool → Except String (List BridgeAction)
  | .openai, conn =>
    .ok (if conn then [.clearToTwilio, .cancelToAdapter] else [])
  | .gemini, _ => .error "AttributeError"

/-- Handling of one telephony media frame (websocket.py lines 99-119):
when the adapter is connected, the Silero probability is put through the
hysteresis — probability above 0.5 while vad_active is false sets
vad_active and calls handle_interruption (an exception there is caught by
the surrounding try/except and only logged, so the state update survives
but no action is emitted); probability below 0.3 clears vad_active; the
band in between changes nothing — and the frame is then forwarded to the
adapter unconditionally.  Returns the new vad_active state and the emitted
actions in order. -/
def mediaFrameStep (v : Variant) (conn : Bool) (vad_active : Bool) (prob : ℚ) :
    Bool × List BridgeAction :=
  if conn then
    let hyst : Bool × List BridgeAction :=
      if prob > mkRat 1 2 then
        if vad_active then (true, [])
        else
          match handleInterruption v conn with
          | .ok acts => (true, acts)
          | .error _ => (true, [])
      else if prob < mkRat 3 10 then (false, [])
      else (vad_active, [])
    (hyst.1, hyst.2 ++ [.audioToAdapter])
  else (vad_active, [])

/-- A run of the media branch over a sequence of frame probabilities,
threading vad_active and concatenating the emitted actions. -/
def runFrames (v : Variant) (conn : Bool) : Bool → List ℚ → Bool × List BridgeAction
  | a, [] => (a, [])
  | a, p :: ps =>
    let s := mediaFrameStep v conn a p
    let r := runFrames v conn s.1 ps
    (r.1, s.2 ++ r.2)

/-! ## Summarizer (services/llm_service.py, LLMService.summarize_call) -/

/-- One transcript entry as appended by the adapters:
a dict with role, content and timestamp. -/
structure Turn where
  role : String
  content : String
  timestamp : Nat
deriving DecidableEq, Repr

/-- Outcome of the Gemini generateContent HTTP call made by
summarize_call: failure covers any raised exception (network error,
raise_for_status); success carries candidates, each a list of part
texts. -/
inductive LLMReply
  | failure
  | success (candidates : List (List String))
deriving DecidableEq, Repr

/-- LLMService.summarize_call (llm_service.py lines 21-69): an empty
transcript returns the no-transcript sentinel before any network call;
otherwise any exception is caught and mapped to the failure fallback; a
response with a first candidate holding a first part returns that part's
text stripped; a response with no usable content returns the no-content
fallback. -/
def summarize_call (llm : LLMReply) (transcript : List Turn) : String :=
  if transcript.isEmpty then "No transcript available."
  else
    match llm with
    | .failure => "Summary generation failed."
    | .success cands =>
      match cands with
      | [] => "Summary unavailable (No content returned)."
      | parts :: _ =>
        match parts with
        | [] => "Summary unavailable (No content returned)."
        | t :: _ => t.trim

/-! ## Call record lifecycle (api/endpoints/websocket.py) -/

/-- Record-store writes performed by the websocket endpoint for one call. -/
inductive StoreOp
  | insertCall (id : String) (call_status : String) (start_time : Nat)
  | insertAttempt (call_id : String) (attempt_number : Nat) (status : String)
      (started_at : Nat)
  | updateCall (id : String) (call_status : String) (duration : Int)
      (transcript : List Turn) (summary : String) (intent : String)
      (end_time : Nat)
  | insertSummary (call_id : String) (summary_text : String)
  | updateAttempt (call_id : String) (status : String) (ended_at : Nat)
deriving DecidableEq, Repr

/-- Writes of the stream-start handler (websocket.py lines 64-90,
log_call_start_sync): insert the calls row with call_status active and the
call_attempts row with status initiated, both stamped with the same start
time. -/
def startOps (call_id : String) (start_time : Nat) (attempt_count : Nat) :
    List StoreOp :=
  [ .insertCall call_id "active" start_time
  , .insertAttempt call_id attempt_count "initiated" start_time ]

/-- Writes of the finalization block (websocket.py lines 137-192, success
path): the calls row is updated to call_status completed with duration
computed as end time minus the stored start time, the session transcript,
the summary from summarize_call and the fixed intent; then a
call_summaries row is inserted and the call_attempts row is marked
completed. -/
def finalizeOps (call_id : String) (start_time end_time : Nat)
    (transcript : List Turn) (llm : LLMReply) : List StoreOp :=
  let duration : Int := (end_time : Int) - (start_time : Int)
  let summary := summarize_call llm transcript
  [ .updateCall call_id "completed" duration transcript summary
      "General Inquiry" end_time
  , .insertSummary call_id summary
  , .updateAttempt call_id "completed" end_time ]

/-- Full record-store trace of one call: the stream-start writes followed
by the finalization writes (the finally block runs exactly once per
websocket connection). -/
def callTrace (call_id : String) (start_time end_time : Nat)
    (attempt_count : Nat) (transcript : List Turn) (llm : LLMReply) :
    List StoreOp :=
  startOps call_id start_time attempt_count ++
    finalizeOps call_id start_time end_time transcript llm

/-- Recognizer for calls-table inserts. -/
def StoreOp.isInsertCall : StoreOp → Bool
  | .insertCall _ _ _ => true
  | _ => false

/-- Recognizer for calls-table updates. -/
def StoreOp.isUpdateCall : StoreOp → Bool
  | .updateCall _ _ _ _ _ _ _ => true
  | _ => false

/-! ## Knowledge-base tool calls (both adapters) -/

/-- Messages sent back on the OpenAI realtime socket by
handle_function_call. -/
inductive OpenAIMsg
  | functionCallOutput (call_id : String) (output : String)
  | responseCreate
deriving DecidableEq, Repr

/-- The no-information sentinel of the OpenAI adapter. -/
def openaiNoInfo : String := "No information found in knowledge base."

/-- OpenAIRealtimeService.handle_function_call (openai_realtime_service.py
lines 299-326): run the knowledge-base search on the requested query,
newline-join the results (or substitute the sentinel when the search
returns an empty list), send the function_call_output conversation item
and then a response.create to resume the turn.  The search collaborator is
a parameter. -/
def openai_handle_function_call (search : String → List String)
    (call_id : String) (query : String) : List OpenAIMsg :=
  let results := search query
  let result_text :=
    if results.isEmpty then openaiNoInfo
    else String.intercalate "\n" results
  [ .functionCallOutput call_id result_text, .responseCreate ]

/-- Message sent back on the Gemini live socket by handle_function_call. -/
inductive GeminiMsg
  | toolResponse (id : String) (name : String) (result : String)
deriving DecidableEq, Repr

/-- The no-information sentinel of the Gemini adapter. -/
def geminiNoInfo : String := "No information found."

/-- GeminiRealtimeService.handle_function_call (gemini_realtime_service.py
lines 311-347): when the call names query_knowledge_base, run the search
on the requested query and newline-join the results (or substitute the
sentinel when the search returns an empty list); any other name leaves the
result text empty; a single tool_response message carries the result back
(the Gemini session resumes on receipt, with no separate resume
message). -/
def gemini_handle_function_call (search : String → List String)
    (id name query : String) : List GeminiMsg :=
  let result_text :=
    if name == "query_knowledge_base" then
      let results := search query
      if results.isEmpty then geminiNoInfo
      else String.intercalate "\n" results
    else ""
  [ .toolResponse id name result_text ]

/-! ## Resampler state threading (services/gemini_realtime_service.py)

audioop.ratecv is an external C routine; at fixed width, channel count and
rate pair it is modelled as an arbitrary function from a chunk and an
optional carried state to a converted chunk and a new state. -/

/-- GeminiRealtimeService.send_audio over the successive inbound chunks of
one call (gemini_realtime_service.py lines 192-224): each 8kHz-to-16kHz
conversion receives self.rate_cv_state and the returned state is stored
back, so the state is threaded chunk to chunk.  Returns the converted
chunks and the final carried state. -/
def send_audio_run {α σ : Type} (ratecv : α → Option σ → α × Option σ) :
    Option σ → List α → List α × Option σ
  | st, [] => ([], st)
  | st, c :: cs =>
    let r := ratecv c st
    let rest := send_audio_run ratecv r.2 cs
    (r.1 :: rest.1, rest.2)

/-- The value of self.rate_cv_state at construction
(gemini_realtime_service.py line 26): None, fresh for every service
instance and hence for every call. -/
def geminiInitState (σ : Type) : Option σ := none

/-- The audio path of GeminiRealtimeService.receive_loop over the
successive outbound chunks of one call (gemini_realtime_service.py lines
254-269): every 24kHz-to-8kHz conversion passes None as the carried state
and discards the returned state (pcm_8k, _ = audioop.ratecv(..., None)),
so nothing is threaded between chunks. -/
def receive_audio_run {α σ : Type} (ratecv : α → Option σ → α × Option σ)
    (cs : List α) : List α :=
  cs.map (fun c => (ratecv c none).1)

/-- Modelled from the spec: the conversion the claim describes for the
AI-to-telephony direction, in which the state output of converting chunk n
is the state input for converting chunk n+1, starting from the fresh
per-call state.  Stated for comparison with receive_audio_run, the
conversion the code performs. -/
def receive_audio_claimed {α σ : Type} (ratecv : α → Option σ → α × Option σ)
    (cs : List α) : List α :=
  (send_audio_run ratecv (geminiInitState σ) cs).1

/-! ## Gemini receive loop and the session transcript -/

/-- One functionCalls entry of a toolCall message: id, name and the query
argument. -/
structure GFunctionCall where
  id : String
  name : String
  query : String
deriving DecidableEq, Repr

/-- One part of a serverContent.modelTurn message: inline audio data
and/or text. -/
structure GeminiPart where
  inline_audio : Option String
  text : Option String
deriving DecidableEq, Repr

/-- One message received from the Gemini live socket, as examined by
receive_loop: modelTurn parts, the interrupted flag, and tool calls. -/
structure GeminiServerMsg where
  parts : List GeminiPart
  interrupted : Bool
  function_calls : List GFunctionCall
deriving DecidableEq, Repr

/-- In-memory session state of a GeminiRealtimeService instance that the
receive loop can reach: the transcript list (initialized empty in
__init__) and the stream sid. -/
structure GeminiSession where
  transcript : List Turn
  stream_sid : Option String
deriving DecidableEq, Repr

/-- Observable outputs of one receive-loop iteration. -/
inductive GeminiOut
  | mediaToTwilio (payload : String)
  | clearToTwilio
  | toolMsg (m : GeminiMsg)
deriving DecidableEq, Repr

/-- Session state of a freshly constructed GeminiRealtimeService
(gemini_realtime_service.py lines 15-26): empty transcript. -/
def geminiSessionInit (sid : Option String) : GeminiSession :=
  { transcript := [], stream_sid := sid }

/-- One iteration of GeminiRealtimeService.receive_loop
(gemini_realtime_service.py lines 232-309): audio parts are transcoded and
forwarded to Twilio when a stream sid is set; text parts are only logged;
an interrupted flag sends a clear event; tool calls are dispatched to
handle_function_call.  No branch touches self.transcript, so the session
state is returned unchanged. -/
def gemini_receive_step (search : String → List String)
    (transcode : String → String) (s : GeminiSession)
    (msg : GeminiServerMsg) : GeminiSession × List GeminiOut :=
  let audioOuts : List GeminiOut :=
    match s.stream_sid with
    | some _ =>
      (msg.parts.filterMap (fun p => p.inline_audio)).map
        (fun a => .mediaToTwilio (transcode a))
    | none => []
  let clearOuts : List GeminiOut := if msg.interrupted then [.clearToTwilio] else []
  let toolOuts : List GeminiOut :=
    (msg.function_calls.map
      (fun fc => gemini_handle_function_call search fc.id fc.name fc.query)).flatten.map
      .toolMsg
  (s, audioOuts ++ clearOuts ++ toolOuts)

/-- A run of the Gemini receive loop over a sequence of server
messages. -/
def gemini_receive_run (search : String → List String)
    (transcode : String → String) (s : GeminiSession) :
    List GeminiServerMsg → GeminiSession
  | [] => s
  | m :: ms =>
    gemini_receive_run search transcode (gemini_receive_step search transcode s m).1 ms

/-! ## Scenario fixtures -/

/-- Iteration environment for the retry scenario of the spec: ngrok
resolves, Twilio accepts the call, the carrier reports the given
outcome. -/
def scenarioEnv (oc : CallOutcome) : DialEnv :=
  { now := 0
  , ngrok_url := some "https://x.ngrok.io"
  , twilio_error := none
  , call_sid := "CA1"
  , outcome := oc }

/-- The enqueued scenario item: number +15551230000, max_attempts 3. -/
def scenarioItem0 : QueueItem := enqueueItem "+15551230000" 0 3

/-- Scenario item after the first iteration (outcome no-answer). -/
def scenarioItem1 : QueueItem := processItem (scenarioEnv .no_answer) scenarioItem0

/-- Scenario item after the second iteration (outcome no-answer). -/
def scenarioItem2 : QueueItem := processItem (scenarioEnv .no_answer) scenarioItem1

/-- Scenario item after the third iteration (outcome completed). -/
def scenarioItem3 : QueueItem := processItem (scenarioEnv .completed) scenarioItem2

/-- The full status sequence of the scenario item: its initial status
followed by every status written during the three iterations. -/
def scenarioStatusSeq : List QStatus :=
  scenarioItem0.status ::
    (statusWrites (scenarioEnv .no_answer) scenarioItem0 ++
      statusWrites (scenarioEnv .no_answer) scenarioItem1 ++
      statusWrites (scenarioEnv .completed) scenarioItem2)

/-! ## Dialer lemmas -/

/-- Processing a selected item whose attempt count is strictly below the
threshold reestablishes the attempt-count invariant. -/
theorem processItem_attemptInv (env : DialEnv) (it : QueueItem)
    (h : it.attempt_count < it.max_attempts) : attemptInv (processItem env it) := by
  unfold processItem attemptInv
  repeat' split
  all_goals refine ⟨?_, ?_⟩ <;> first | (simp_all; omega) | simp_all

/-- Soundness of the limit-1 row lookup. -/
theorem findIdxFrom_spec (p : QueueItem → Bool) (l : List QueueItem) (i : Nat)
    (h : findIdxFrom p l = some i) : ∃ it, l[i]? = some it ∧ p it = true := by
  induction l generalizing i with
  | nil => simp [findIdxFrom] at h
  | cons a l ih =>
    unfold findIdxFrom at h
    by_cases hp : p a
    · simp [hp] at h
      subst h
      exact ⟨a, by simp, hp⟩
    · simp [hp] at h
      rcases hmap : findIdxFrom p l with _ | j
      · rw [hmap] at h
        simp at h
      · rw [hmap] at h
        simp at h
        obtain ⟨it, h1, h2⟩ := ih j hmap
        refine ⟨it, ?_, h2⟩
        rw [← h]
        simpa using h1

/-- A selected prospect is a pending row or an elapsed retry_scheduled
row. -/
theorem selectIdx_spec (now : Nat) (db : List QueueItem) (i : Nat)
    (h : selectIdx now db = some i) :
    ∃ it, db[i]? = some it ∧
      (it.status = .pending ∨
        (it.status = .retry_scheduled ∧ nextRetryElapsed now it = true)) := by
  unfold selectIdx at h
  rcases h1 : findIdxFrom (fun it => it.status == .pending) db with _ | j
  · rw [h1] at h
    obtain ⟨it, hit, hpit⟩ := findIdxFrom_spec _ _ _ h
    refine ⟨it, hit, Or.inr ?_⟩
    simp only [Bool.and_eq_true, beq_iff_eq] at hpit
    exact hpit
  · rw [h1] at h
    simp at h
    subst h
    obtain ⟨it, hit, hpit⟩ := findIdxFrom_spec _ _ _ h1
    refine ⟨it, hit, Or.inl ?_⟩
    simpa using hpit

/-- A terminal row is never selectable. -/
theorem terminal_not_selectable (now : Nat) (it : QueueItem)
    (h : it.status = .failed_final ∨ it.status = .answered) :
    selectable now it = false := by
  rcases h with h | h <;> simp [selectable, h]

/-- One worker iteration preserves the attempt-count invariant of every
row. -/
theorem queueStep_attemptInv (env : DialEnv) (db : List QueueItem)
    (hdb : ∀ it ∈ db, attemptInv it) :
    ∀ it ∈ queueStep env db, attemptInv it := by
  intro it hit
  unfold queueStep at hit
  rcases hsel : selectIdx env.now db with _ | i
  · rw [hsel] at hit
    exact hdb it hit
  · rw [hsel] at hit
    dsimp only at hit
    rcases hget : db[i]? with _ | sel
    · rw [hget] at hit
      exact hdb it hit
    · rw [hget] at hit
      dsimp only at hit
      obtain ⟨selIt, hgi, hstat⟩ := selectIdx_spec env.now db i hsel
      have hse : selIt = sel := by
        rw [hget] at hgi
        exact (Option.some.inj hgi).symm
      subst hse
      have hinv := hdb selIt (List.getElem?_mem hget)
      have hlt : selIt.attempt_count < selIt.max_attempts := by
        rcases hinv with ⟨hle, hc⟩
        rcases hstat with hs | ⟨hs, _⟩ <;> rcases hc with h | h | h <;> simp_all
      rcases List.mem_or_eq_of_mem_set hit with hmem2 | heq
      · exact hdb it hmem2
      · subst heq
        exact processItem_attemptInv env selIt hlt

/-- A terminal row is never mutated by a worker iteration. -/
theorem queueStep_terminal_fixed (env : DialEnv) (db : List QueueItem) (i : Nat)
    (it : QueueItem) (hget : db[i]? = some it)
    (hterm : it.status = .failed_final ∨ it.status = .answered) :
    (queueStep env db)[i]? = some it := by
  unfold queueStep
  rcases hsel : selectIdx env.now db with _ | j
  · exact hget
  · dsimp only
    rcases hgj : db[j]? with _ | sel
    · exact hget
    · dsimp only
      obtain ⟨selIt, hgi, hstat⟩ := selectIdx_spec env.now db j hsel
      have hse : selIt = sel := by
        rw [hgj] at hgi
        exact (Option.some.inj hgi).symm
      subst hse
      have hne : j ≠ i := by
        intro hji
        subst hji
        rw [hget] at hgj
        have : selIt = it := Option.some.inj hgj.symm
        subst this
        rcases hstat with hs | ⟨hs, _⟩ <;> rcases hterm with ht | ht <;> simp_all
      rw [List.getElem?_set_ne hne]
      exact hget

/-- Every row still satisfies the attempt-count invariant after any run of
the worker. -/
theorem queueRun_attemptInv (envs : List DialEnv) (db : List QueueItem)
    (hdb : ∀ it ∈ db, attemptInv it) :
    ∀ it ∈ queueRun envs db, attemptInv it := by
  induction envs generalizing db with
  | nil => simpa [queueRun] using hdb
  | cons e es ih =>
    intro it hit
    refine ih (queueStep e db) (queueStep_attemptInv e db hdb) it ?_
    simpa [queueRun] using hit

/-- A freshly enqueued row satisfies the attempt-count invariant whenever
the attempt budget is positive. -/
theorem enqueueItem_attemptInv (num : String) (now mx : Nat) (h : 1 ≤ mx) :
    attemptInv (enqueueItem num now mx) := by
  refine ⟨by simp [enqueueItem], Or.inr (Or.inr ?_)⟩
  simp [enqueueItem]
  omega

/-! ## Claim theorems: outbound dialer -/

/-- C2, amended: after carrier polling yields a terminal outcome, a
completed outcome marks the item answered with attempt_count untouched;
any other outcome increments attempt_count and marks the item failed_final
with the outcome as error_reason when the incremented count has reached
max_attempts, else retry_scheduled with next_retry_at five minutes ahead
and the outcome recorded.  Under max_attempts 3 and outcomes no-answer,
no-answer, completed, the status sequence is pending, calling,
retry_scheduled, calling, retry_scheduled, calling, answered, and the
final attempt_count is 2 (the completed branch does not increment it, so
it counts only the failed attempts). -/
theorem C2_outcome_policy (env : DialEnv) (it : QueueItem)
    (hp : it.phone_number.isSome = true) (hn : env.ngrok_url.isSome = true)
    (ht : env.twilio_error = none) :
    (env.outcome = .completed →
      (processItem env it).status = .answered ∧
      (processItem env it).attempt_count = it.attempt_count) ∧
    (env.outcome ≠ .completed →
      (processItem env it).attempt_count = it.attempt_count + 1 ∧
      (it.max_attempts ≤ it.attempt_count + 1 →
        (processItem env it).status = .failed_final ∧
        (processItem env it).error_reason = some env.outcome.label) ∧
      (it.attempt_count + 1 < it.max_attempts →
        (processItem env it).status = .retry_scheduled ∧
        (processItem env it).next_retry_at = some (env.now + retryDelaySeconds) ∧
        (processItem env it).error_reason = some env.outcome.label)) ∧
    scenarioStatusSeq =
      [.pending, .calling, .retry_scheduled, .calling, .retry_scheduled,
        .calling, .answered] ∧
    scenarioItem3.status = .answered ∧
    scenarioItem3.attempt_count = 2 := by
  obtain ⟨p, hp⟩ := Option.isSome_iff_exists.mp hp
  obtain ⟨u, hn⟩ := Option.isSome_iff_exists.mp hn
  refine ⟨?_, ?_, by decide, by decide, by decide⟩
  · intro hoc
    simp [processItem, hp, hn, ht, hoc]
  · intro hoc
    rcases ho : env.outcome with _ | _ | _ | _ | _ | _
    · exact absurd ho hoc
    all_goals
      refine ⟨?_, ?_, ?_⟩
      · simp only [processItem, hp, hn, ht, ho]
        split <;> simp
      · intro hth
        simp only [processItem, hp, hn, ht, ho]
        rw [if_pos hth]
        simp
      · intro hth
        simp only [processItem, hp, hn, ht, ho]
        rw [if_neg (by omega)]
        simp

/-- C2: the claim's retry scenario (max_attempts 3, outcomes no-answer,
no-answer, completed) ends with attempt_count 2, not 3 as the claim
states: the completed branch updates only the status. -/
theorem C2_counterexample :
    scenarioItem3.status = .answered ∧ scenarioItem3.attempt_count = 2 ∧
    ¬ scenarioItem3.attempt_count = 3 := by decide

/-- Witness for C2_outcome_policy at the scenario inputs. -/
theorem C2_outcome_policy_witness :
    (processItem (scenarioEnv .no_answer) scenarioItem0).attempt_count =
      scenarioItem0.attempt_count + 1 ∧
    (processItem (scenarioEnv .completed) scenarioItem2).status = .answered := by
  have h1 := C2_outcome_policy (scenarioEnv .no_answer) scenarioItem0
    (by decide) (by decide) (by decide)
  have h2 := C2_outcome_policy (scenarioEnv .completed) scenarioItem2
    (by decide) (by decide) (by decide)
  exact ⟨(h1.2.1 (by decide)).1, (h2.1 (by decide)).1⟩

/-- C3: a freshly enqueued item (with a positive attempt budget) satisfies
the attempt-count invariant; one worker iteration preserves it for every
row; along any run every row keeps attempt_count at or below max_attempts;
a failed_final or answered row is never matched by the selection filters
(which accept only pending rows and retry_scheduled rows whose
next_retry_at has elapsed); and a worker iteration leaves every terminal
row exactly as it was. -/
theorem C3_terminal_rows_and_attempt_bound :
    (∀ num now mx, 1 ≤ mx → attemptInv (enqueueItem num now mx)) ∧
    (∀ env db, (∀ it ∈ db, attemptInv it) →
      ∀ it ∈ queueStep env db, attemptInv it) ∧
    (∀ envs db, (∀ it ∈ db, attemptInv it) →
      ∀ it ∈ queueRun envs db, it.attempt_count ≤ it.max_attempts) ∧
    (∀ now it, (it.status = .failed_final ∨ it.status = .answered) →
      selectable now it = false) ∧
    (∀ now db i, selectIdx now db = some i →
      ∃ it, db[i]? = some it ∧
        (it.status = .pending ∨
          (it.status = .retry_scheduled ∧ nextRetryElapsed now it = true))) ∧
    (∀ (env : DialEnv) (db : List QueueItem) (i : Nat) (it : QueueItem),
      db[i]? = some it →
      (it.status = .failed_final ∨ it.status = .answered) →
      (queueStep env db)[i]? = some it) := by
  refine ⟨enqueueItem_attemptInv, queueStep_attemptInv, ?_, terminal_not_selectable,
    selectIdx_spec, queueStep_terminal_fixed⟩
  intro envs db hdb it hit
  exact (queueRun_attemptInv envs db hdb it hit).1

/-- Witness for C3_terminal_rows_and_attempt_bound: a concrete enqueued
item satisfies the invariant, a concrete run respects the bound, and the
concrete answered scenario item is not selectable. -/
theorem C3_witness :
    attemptInv (enqueueItem "+15551230000" 0 3) ∧
    (∀ it ∈ queueRun [scenarioEnv .no_answer] [scenarioItem0],
      it.attempt_count ≤ it.max_attempts) ∧
    selectable 0 scenarioItem3 = false := by
  have h := C3_terminal_rows_and_attempt_bound
  refine ⟨h.1 "+15551230000" 0 3 (by decide), ?_, ?_⟩
  · exact h.2.2.1 [scenarioEnv .no_answer] [scenarioItem0]
      (by intro it hit; simp at hit; subst hit; decide)
  · exact h.2.2.2.1 0 scenarioItem3 (Or.inr (by decide))

/-- Fixture for C5: an iteration in which ngrok yields no public URL. -/
def c5Env : DialEnv :=
  { now := 7
  , ngrok_url := none
  , twilio_error := none
  , call_sid := "CA0"
  , outcome := .unknown }

/-- C5, amended: when the public callback URL cannot be resolved the
worker backs off without recording any call failure on the item —
attempt_count, error_reason, next_retry_at and call_sid are untouched —
but the item is not left untouched: it was already marked calling (status
and last_call_at updated) before the URL resolution was attempted, and it
stays in that state. -/
theorem C5_no_url_policy (env : DialEnv) (it : QueueItem)
    (hp : it.phone_number.isSome = true) (hn : env.ngrok_url = none) :
    processItem env it =
      { it with status := .calling, last_call_at := some env.now } ∧
    (processItem env it).attempt_count = it.attempt_count ∧
    (processItem env it).error_reason = it.error_reason ∧
    (processItem env it).next_retry_at = it.next_retry_at ∧
    (processItem env it).call_sid = it.call_sid ∧
    (processItem env it).status = .calling := by
  obtain ⟨p, hp⟩ := Option.isSome_iff_exists.mp hp
  refine ⟨?_, ?_, ?_, ?_, ?_, ?_⟩ <;> simp [processItem, hp, hn]

/-- C5: counterexample to the claim that the item is left untouched when
the callback URL is unavailable: the pending scenario item has been
mutated to status calling. -/
theorem C5_counterexample :
    (processItem c5Env scenarioItem0).status = .calling ∧
    scenarioItem0.status = .pending ∧
    processItem c5Env scenarioItem0 ≠ scenarioItem0 := by decide

/-- Witness for C5_no_url_policy at the concrete fixture. -/
theorem C5_no_url_policy_witness :
    processItem c5Env scenarioItem0 =
      { scenarioItem0 with status := .calling, last_call_at := some 7 } := by
  have h := C5_no_url_policy c5Env scenarioItem0 (by decide) (by decide)
  exact h.1

/-! ## Claim theorems: interruption and hysteresis -/

/-- A speech frame while the state is already active emits only the
forwarded audio (OpenAI variant). -/
theorem mediaFrameStep_speech_active (p : ℚ) (h : p > mkRat 1 2) :
    mediaFrameStep .openai true true p = (true, [.audioToAdapter]) := by
  simp [mediaFrameStep, h]

/-- A speech frame while the state is inactive fires the interruption:
clear, then cancel, then the forwarded audio (OpenAI variant). -/
theorem mediaFrameStep_speech_inactive (p : ℚ) (h : p > mkRat 1 2) :
    mediaFrameStep .openai true false p =
      (true, [.clearToTwilio, .cancelToAdapter, .audioToAdapter]) := by
  simp [mediaFrameStep, handleInterruption, h]

/-- A silence frame clears the state and emits only the forwarded
audio. -/
theorem mediaFrameStep_silence (p : ℚ) (a : Bool) (h : p < mkRat 3 10) :
    mediaFrameStep .openai true a p = (false, [.audioToAdapter]) := by
  have h2 : ¬ (mkRat 1 2 < p) :=
    not_lt.mpr (le_of_lt (lt_trans h (by decide)))
  simp [mediaFrameStep, h, h2]

/-- A frame in the hysteresis band leaves the state unchanged and emits
only the forwarded audio. -/
theorem mediaFrameStep_band (p : ℚ) (a : Bool)
    (h1 : mkRat 3 10 ≤ p) (h2 : p ≤ mkRat 1 2) :
    mediaFrameStep .openai true a p = (a, [.audioToAdapter]) := by
  have hgt : ¬ (mkRat 1 2 < p) := not_lt.mpr h2
  have hlt : ¬ (p < mkRat 3 10) := not_lt.mpr h1
  simp [mediaFrameStep, hgt, hlt]

/-- While the state is active, a run of speech frames fires nothing: every
frame only forwards audio. -/
theorem runFrames_active_speech (ps : List ℚ) (h : ∀ p ∈ ps, p > mkRat 1 2) :
    runFrames .openai true true ps =
      (true, List.replicate ps.length .audioToAdapter) := by
  induction ps with
  | nil => rfl
  | cons p ps ih =>
    have hp := h p (by simp)
    have hps : ∀ q ∈ ps, q > mkRat 1 2 := fun q hq => h q (by simp [hq])
    simp [runFrames, mediaFrameStep_speech_active p hp, ih hps,
      List.replicate_succ]

/-- C4: the media-branch hysteresis of the websocket endpoint — a frame
with probability above 0.5 while inactive sets the state and fires exactly
one interruption (one clear then one cancel on the OpenAI adapter); above
0.5 while already active fires nothing; below 0.3 clears the state; the
band between 0.3 and 0.5 holds the previous state and fires nothing; and a
silence frame followed by a nonempty run of consecutive speech frames
emits exactly one clear and exactly one cancel in total. -/
theorem C4_vad_hysteresis (prob sil : ℚ) (a : Bool) (ps : List ℚ)
    (hsil : sil < mkRat 3 10) (hps : ∀ p ∈ ps, p > mkRat 1 2) :
    (prob > mkRat 1 2 →
      mediaFrameStep .openai true false prob =
        (true, [.clearToTwilio, .cancelToAdapter, .audioToAdapter])) ∧
    (prob > mkRat 1 2 →
      mediaFrameStep .openai true true prob = (true, [.audioToAdapter])) ∧
    (prob < mkRat 3 10 →
      mediaFrameStep .openai true a prob = (false, [.audioToAdapter])) ∧
    (mkRat 3 10 ≤ prob → prob ≤ mkRat 1 2 →
      mediaFrameStep .openai true a prob = (a, [.audioToAdapter])) ∧
    (ps ≠ [] →
      (runFrames .openai true a (sil :: ps)).2.count .clearToTwilio = 1 ∧
      (runFrames .openai true a (sil :: ps)).2.count .cancelToAdapter = 1) := by
  refine ⟨mediaFrameStep_speech_inactive prob, mediaFrameStep_speech_active prob,
    mediaFrameStep_silence prob a, mediaFrameStep_band prob a, ?_⟩
  intro hne
  rcases ps with _ | ⟨p, ps'⟩
  · exact absurd rfl hne
  · have hp := hps p (by simp)
    have hps' : ∀ q ∈ ps', q > mkRat 1 2 := fun q hq => hps q (by simp [hq])
    constructor <;>
      simp [runFrames, mediaFrameStep_silence sil a hsil,
        mediaFrameStep_speech_inactive p hp, runFrames_active_speech ps' hps',
        List.count_append, List.count_cons, List.count_replicate]

/-- Witness for C4_vad_hysteresis at concrete frames: silence 1/10 then
two speech frames 9/10 yield exactly one clear and one cancel. -/
theorem C4_vad_hysteresis_witness :
    mediaFrameStep .openai true false (mkRat 9 10) =
      (true, [.clearToTwilio, .cancelToAdapter, .audioToAdapter]) ∧
    (runFrames .openai true true
        [mkRat 1 10, mkRat 9 10, mkRat 9 10]).2.count .clearToTwilio = 1 ∧
    (runFrames .openai true true
        [mkRat 1 10, mkRat 9 10, mkRat 9 10]).2.count .cancelToAdapter = 1 := by
  have h := C4_vad_hysteresis (mkRat 9 10) (mkRat 1 10) true
    [mkRat 9 10, mkRat 9 10] (by decide) (by decide)
  exact ⟨h.1 (by decide), (h.2.2.2.2 (by decide)).1, (h.2.2.2.2 (by decide)).2⟩

/-- C1: at the failing input — the Gemini adapter variant (the one the
endpoint constructs on websocket.py line 32), a media frame with speech
probability 9/10 arriving while vad_active is false and the adapter is
emitting audio — the interruption dispatch raises AttributeError because
GeminiRealtimeService defines no handle_interruption method, the
exception is swallowed by the surrounding VAD try/except, and the frame
handling emits neither a clear event to the transport nor a cancel signal
to the adapter, only the forwarded audio.  The OpenAI variant at the same
input emits the clear and the cancel before the forwarded frame, as the
claim demands of every variant. -/
theorem C1_gemini_missing_interruption :
    handleInterruption .gemini true = .error "AttributeError" ∧
    mediaFrameStep .gemini true false (mkRat 9 10) = (true, [.audioToAdapter]) ∧
    (mediaFrameStep .gemini true false (mkRat 9 10)).2.count .clearToTwilio = 0 ∧
    (mediaFrameStep .gemini true false (mkRat 9 10)).2.count .cancelToAdapter = 0 ∧
    mediaFrameStep .openai true false (mkRat 9 10) =
      (true, [.clearToTwilio, .cancelToAdapter, .audioToAdapter]) :=
  ⟨rfl, by decide, by decide, by decide, by decide⟩

/-! ## Claim theorems: call record, summarizer -/

/-- C6: for every call the record-store trace holds exactly one insert
into the calls table, carrying status active and the start time; exactly
one update of the calls table, carrying status completed, the duration
computed as end time minus start time, the session transcript and the
summary; and the computed duration is nonnegative whenever the end time is
not before the start time. -/
theorem C6_call_record_lifecycle (cid : String) (st et ac : Nat)
    (tr : List Turn) (llm : LLMReply) (h : st ≤ et) :
    (callTrace cid st et ac tr llm).countP (fun o => o.isInsertCall) = 1 ∧
    (callTrace cid st et ac tr llm).countP (fun o => o.isUpdateCall) = 1 ∧
    StoreOp.insertCall cid "active" st ∈ callTrace cid st et ac tr llm ∧
    StoreOp.updateCall cid "completed" ((et : Int) - (st : Int)) tr
        (summarize_call llm tr) "General Inquiry" et ∈
      callTrace cid st et ac tr llm ∧
    0 ≤ (et : Int) - (st : Int) := by
  refine ⟨?_, ?_, ?_, ?_, ?_⟩
  · simp [callTrace, startOps, finalizeOps, StoreOp.isInsertCall,
      StoreOp.isUpdateCall, List.countP_cons]
  · simp [callTrace, startOps, finalizeOps, StoreOp.isInsertCall,
      StoreOp.isUpdateCall, List.countP_cons]
  · simp [callTrace, startOps, finalizeOps]
  · simp [callTrace, startOps, finalizeOps]
  · omega

/-- Witness for C6_call_record_lifecycle at a concrete call. -/
theorem C6_call_record_lifecycle_witness :
    (callTrace "c1" 3 10 1 [] .failure).countP (fun o => o.isUpdateCall) = 1 ∧
    0 ≤ ((10 : Nat) : Int) - ((3 : Nat) : Int) := by
  have h := C6_call_record_lifecycle "c1" 3 10 1 [] .failure (by decide)
  exact ⟨h.2.1, h.2.2.2.2⟩

/-- C7: summarize_call is a total function — every branch yields a
defined text rather than an exception — returning the no-transcript
sentinel for an empty transcript, the failure fallback when summarization
raises, the no-content fallback when the response has no usable candidate
part, and the stripped first part text otherwise. -/
theorem C7_summarize_fallbacks (llm : LLMReply) (tr : List Turn)
    (t : String) (parts : List String) (cands : List (List String)) :
    (tr = [] → summarize_call llm tr = "No transcript available.") ∧
    (tr ≠ [] → llm = .failure →
      summarize_call llm tr = "Summary generation failed.") ∧
    (tr ≠ [] → llm = .success [] →
      summarize_call llm tr = "Summary unavailable (No content returned).") ∧
    (tr ≠ [] → llm = .success ([] :: cands) →
      summarize_call llm tr = "Summary unavailable (No content returned).") ∧
    (tr ≠ [] → llm = .success ((t :: parts) :: cands) →
      summarize_call llm tr = t.trim) := by
  refine ⟨?_, ?_, ?_, ?_, ?_⟩
  · intro h1
    subst h1
    rfl
  all_goals
    intro h1 h2
    subst h2
    simp [summarize_call, h1]

/-- Witness for C7_summarize_fallbacks: the empty transcript and the
failing summarizer on a nonempty transcript. -/
theorem C7_summarize_fallbacks_witness :
    summarize_call .failure [] = "No transcript available." ∧
    summarize_call .failure [⟨"user", "hello", 0⟩] =
      "Summary generation failed." := by
  have h1 := C7_summarize_fallbacks .failure [] "" [] []
  have h2 := C7_summarize_fallbacks .failure [⟨"user", "hello", 0⟩] "" [] []
  exact ⟨h1.1 rfl, h2.2.1 (by simp) rfl⟩

/-! ## Claim theorems: resampler state -/

/-- Concrete resampler instance that separates threaded from unthreaded
conversion: the output chunk adds the carried state, the new state stores
the input chunk. -/
def rcEx : Nat → Option Nat → Nat × Option Nat :=
  fun c s => (c + s.getD 0, some c)

/-- C8: counterexample to threading in the AI-to-telephony direction —
on the chunk sequence [5, 7] the receive path of the code converts every
chunk with the state None (yielding [5, 7]) while the claimed threaded
conversion would feed chunk 0's output state (some 5, not None) into
chunk 1 (yielding [5, 12]). -/
theorem C8_counterexample :
    receive_audio_run rcEx [5, 7] = [5, 7] ∧
    receive_audio_claimed rcEx [5, 7] = [5, 12] ∧
    receive_audio_run rcEx [5, 7] ≠ receive_audio_claimed rcEx [5, 7] ∧
    (rcEx 5 (geminiInitState Nat)).2 = some 5 := by decide

/-- C8, amended: within one call the telephony-to-AI direction does
thread the conversion state — the state output of chunk n is the state
input of chunk n+1, starting from the fresh per-call None — while the
AI-to-telephony direction converts every chunk with the state None and
discards the output state, so no state is carried between chunks in that
direction and none is shared with the other direction. -/
theorem C8_state_threading {α σ : Type} (ratecv : α → Option σ → α × Option σ)
    (st : Option σ) (c : α) (cs : List α) :
    (send_audio_run ratecv st (c :: cs)).1 =
      (ratecv c st).1 :: (send_audio_run ratecv (ratecv c st).2 cs).1 ∧
    (send_audio_run ratecv st (c :: cs)).2 =
      (send_audio_run ratecv (ratecv c st).2 cs).2 ∧
    receive_audio_run ratecv (c :: cs) =
      (ratecv c none).1 :: receive_audio_run ratecv cs ∧
    geminiInitState σ = none := by
  refine ⟨?_, ?_, ?_, rfl⟩ <;> simp [send_audio_run, receive_audio_run]

/-- Witness for C8_state_threading at the concrete resampler instance. -/
theorem C8_state_threading_witness :
    (send_audio_run rcEx (geminiInitState Nat) [5, 7]).1 =
      (rcEx 5 none).1 :: (send_audio_run rcEx (rcEx 5 none).2 [7]).1 ∧
    receive_audio_run rcEx [5, 7] =
      (rcEx 5 none).1 :: receive_audio_run rcEx [7] := by
  have h := C8_state_threading rcEx (geminiInitState Nat) 5 [7]
  exact ⟨h.1, h.2.2.1⟩

/-! ## Claim theorems: tool-call dispatch -/

/-- C9: for a query_knowledge_base tool call, both adapters run the
search collaborator on the requested query and reply with the
newline-joined result texts when the search returns a nonempty sequence,
or with their literal no-information sentinel when it returns the empty
sequence; the OpenAI adapter then emits response.create to resume the
turn, while the Gemini adapter's single tool_response resumes its
continuously streaming session implicitly. -/
theorem C9_tool_call_dispatch (search : String → List String)
    (cid id q : String) :
    (search q ≠ [] →
      openai_handle_function_call search cid q =
        [.functionCallOutput cid (String.intercalate "\n" (search q)),
          .responseCreate]) ∧
    (search q = [] →
      openai_handle_function_call search cid q =
        [.functionCallOutput cid openaiNoInfo, .responseCreate]) ∧
    (search q ≠ [] →
      gemini_handle_function_call search id "query_knowledge_base" q =
        [.toolResponse id "query_knowledge_base"
          (String.intercalate "\n" (search q))]) ∧
    (search q = [] →
      gemini_handle_function_call search id "query_knowledge_base" q =
        [.toolResponse id "query_knowledge_base" geminiNoInfo]) := by
  refine ⟨?_, ?_, ?_, ?_⟩ <;> intro h <;>
    simp [openai_handle_function_call, gemini_handle_function_call, h]

/-- Concrete search collaborator for the C9 witness. -/
def searchEx : String → List String :=
  fun q =>
    if q == "refund policy" then
      ["Refunds are made within 30 days.", "Contact support for refunds."]
    else []

/-- Witness for C9_tool_call_dispatch: a hit query on the OpenAI adapter
and a miss query on the Gemini adapter. -/
theorem C9_tool_call_dispatch_witness :
    openai_handle_function_call searchEx "call7" "refund policy" =
      [.functionCallOutput "call7"
          (String.intercalate "\n" (searchEx "refund policy")),
        .responseCreate] ∧
    gemini_handle_function_call searchEx "fc1" "query_knowledge_base"
        "unknown topic" =
      [.toolResponse "fc1" "query_knowledge_base" geminiNoInfo] := by
  have h1 := C9_tool_call_dispatch searchEx "call7" "fc1" "refund policy"
  have h2 := C9_tool_call_dispatch searchEx "call7" "fc1" "unknown topic"
  exact ⟨h1.1 (by decide), h2.2.2.2 (by decide)⟩

/-! ## Claim theorems: Gemini transcript -/

/-- No iteration of the Gemini receive loop changes the session state. -/
theorem gemini_receive_run_state (search : String → List String)
    (transcode : String → String) (s : GeminiSession)
    (msgs : List GeminiServerMsg) :
    gemini_receive_run search transcode s msgs = s := by
  induction msgs with
  | nil => rfl
  | cons m ms ih => simpa [gemini_receive_run, gemini_receive_step] using ih

/-- C10: under the Gemini adapter (the variant the endpoint constructs)
the session transcript stays the empty list through every receive-loop
message — no branch appends a user or assistant turn — so finalization
persists an empty transcript, the summary equals the no-transcript
sentinel, and the calls-table update carries the empty transcript and
that sentinel. -/
theorem C10_gemini_transcript_stays_empty (search : String → List String)
    (transcode : String → String) (sid : Option String)
    (msgs : List GeminiServerMsg) (s : GeminiSession) (msg : GeminiServerMsg)
    (cid : String) (st et : Nat) (llm : LLMReply) :
    (gemini_receive_step search transcode s msg).1.transcript = s.transcript ∧
    (gemini_receive_run search transcode (geminiSessionInit sid) msgs).transcript
      = [] ∧
    summarize_call llm
        (gemini_receive_run search transcode (geminiSessionInit sid) msgs).transcript
      = "No transcript available." ∧
    StoreOp.updateCall cid "completed" ((et : Int) - (st : Int)) []
        "No transcript available." "General Inquiry" et ∈
      finalizeOps cid st et
        (gemini_receive_run search transcode (geminiSessionInit sid) msgs).transcript
        llm := by
  have hrun := gemini_receive_run_state search transcode (geminiSessionInit sid) msgs
  refine ⟨rfl, ?_, ?_, ?_⟩
  · rw [hrun]
    rfl
  · rw [hrun]
    rfl
  · rw [hrun]
    simp [finalizeOps, geminiSessionInit, summarize_call]

end VocalQ
